import Mathlib

/-!
Verification development for the vex-tm-bridge polling / caching /
change-detection engine.  The definitions below are a shallow embedding of
`src/vex_tm_bridge/base.py` and `src/vex_tm_bridge/impl.py`: the pywinauto
control surface of one fieldset window is modelled as a record of readable
control states (`Handle`), the pure field-reading helpers (`impl_get_*`)
are translated function by function, and fallible Python code (raising
`ValueError` etc.) is modelled with `Except String`.
-/

set_option maxRecDepth 4000

deriving instance DecidableEq for Except

/-- The competition kind (base.py, `Competition`). -/
inductive Competition where
  | V5RC
  | VIQRC
deriving DecidableEq, BEq, Repr

/-- Audience display modes (base.py, `FieldsetAudienceDisplay`), in Python
enum definition order. -/
inductive FieldsetAudienceDisplay where
  | Blank
  | Logo
  | Intro
  | InMatch
  | SavedMatchResults
  | Schedule
  | Rankings
  | SkillsRankings
  | AllianceSelection
  | ElimBracket
  | Slides
  | Inspection
deriving DecidableEq, BEq, Repr

/-- Python enum definition order of the audience display modes. -/
def allDisplays : List FieldsetAudienceDisplay :=
  [.Blank, .Logo, .Intro, .InMatch, .SavedMatchResults, .Schedule, .Rankings,
   .SkillsRankings, .AllianceSelection, .ElimBracket, .Slides, .Inspection]

/-- base.py `FieldsetAudienceDisplay.available_for`: every display is valid
for both competitions except `AllianceSelection` and `ElimBracket`, which are
V5RC-only. -/
def FieldsetAudienceDisplay.available_for
    (d : FieldsetAudienceDisplay) (c : Competition) : Bool :=
  match d, c with
  | .AllianceSelection, .VIQRC => false
  | .ElimBracket, .VIQRC => false
  | _, _ => true

/-- Match field lifecycle states (base.py, `FieldsetState`), in Python enum
definition order. -/
inductive FieldsetState where
  | Prestart
  | Autonomous
  | DriverControl
  | Pause
  | Disabled
  | Timeout
deriving DecidableEq, BEq, Repr

/-- Python enum definition order of the lifecycle states, as iterated by
`FieldsetState.by_ui_name`. -/
def allStates : List FieldsetState :=
  [.Prestart, .Autonomous, .DriverControl, .Pause, .Disabled, .Timeout]

/-- base.py `FieldsetState.ui_name`: the second component of each enum value.
Note that `Disabled` has the empty string as its UI name. -/
def FieldsetState.ui_name : FieldsetState → String
  | .Prestart => "PRESTART"
  | .Autonomous => "AUTONOMOUS"
  | .DriverControl => "DRIVER CONTROL"
  | .Pause => "PAUSED"
  | .Disabled => ""
  | .Timeout => "TIMEOUT"

/-- base.py `FieldsetState.by_ui_name`: scan the states in definition order
and return the first whose `ui_name` equals the argument; raise `ValueError`
otherwise. -/
def FieldsetState.by_ui_name (name : String) : Except String FieldsetState :=
  match allStates.find? (fun st => st.ui_name == name) with
  | some st => Except.ok st
  | none => Except.error "ValueError: No state found for name"

/-- The kind of match active on the field (base.py, `FieldsetActiveMatch`). -/
inductive FieldsetActiveMatch where
  | NoActiveMatch
  | Timeout
  | Match
deriving DecidableEq, BEq, Repr

/-- Autonomous bonus selection (base.py, `FieldsetAutonomousBonus`), in
Python enum definition order. -/
inductive FieldsetAutonomousBonus where
  | NoBonus
  | Tie
  | Red
  | Blue
deriving DecidableEq, BEq, Repr

/-- Python enum definition order of the autonomous bonus values. -/
def allBonuses : List FieldsetAutonomousBonus := [.NoBonus, .Tie, .Red, .Blue]

/-- Python `str.split` on the single separator character `:`.
`splitOnColon "a:b".toList = [toList "a", toList "b"]`, and a string without
the separator yields the one-element list holding the whole string. -/
def splitOnColon : List Char → List (List Char)
  | [] => [[]]
  | c :: rest =>
    if c = ':' then [] :: splitOnColon rest
    else
      match splitOnColon rest with
      | [] => [[c]]
      | p :: ps => (c :: p) :: ps

/-- Value of an ASCII digit character, `none` for anything else. -/
def charDigit (ch : Char) : Option Nat :=
  if '0' ≤ ch ∧ ch ≤ '9' then some (ch.toNat - 48) else none

/-- Continuation of Python `int()` digit parsing: after at least one digit
has been read, accept further digits with single underscores allowed between
digits. -/
def pyDigitsGo : Nat → List Char → Option Nat
  | acc, [] => some acc
  | acc, '_' :: ch :: rest =>
    match charDigit ch with
    | some d => pyDigitsGo (acc * 10 + d) rest
    | none => none
  | acc, ch :: rest =>
    match charDigit ch with
    | some d => pyDigitsGo (acc * 10 + d) rest
    | none => none

/-- Python `int()` unsigned digit run: one digit, then `pyDigitsGo`. -/
def pyParseNat : List Char → Option Nat
  | [] => none
  | ch :: rest =>
    match charDigit ch with
    | some d => pyDigitsGo d rest
    | none => none

/-- Drop leading whitespace (Python `int()` ignores surrounding whitespace). -/
def dropLeadingWs (cs : List Char) : List Char := cs.dropWhile Char.isWhitespace

/-- Strip whitespace from both ends of a character list. -/
def stripWs (cs : List Char) : List Char :=
  ((dropLeadingWs cs).reverse.dropWhile Char.isWhitespace).reverse

/-- Python `int(str)`: surrounding whitespace, an optional sign, then a
digit run (single underscores allowed between digits); `none` models the
`ValueError` raised on any other input. -/
def pyInt (cs : List Char) : Option Int :=
  match stripWs cs with
  | '+' :: rest => (pyParseNat rest).map Int.ofNat
  | '-' :: rest => (pyParseNat rest).map (fun n => -(n : Int))
  | rest => (pyParseNat rest).map Int.ofNat

/-- impl.py `impl_get_match_time_by_string`: empty or absent text gives 0; a
value containing `:` is unpacked as exactly two parts `minutes:seconds` and
parsed as `int(minutes) * 60 + int(seconds)` (the unpack and the `int` calls
raise `ValueError` on malformed text); a value without `:` gives 0. -/
def impl_get_match_time_by_string (raw : Option String) : Except String Int :=
  match raw with
  | none => Except.ok 0
  | some raw =>
    if raw = "" then Except.ok 0
    else if raw.toList.contains ':' then
      match splitOnColon raw.toList with
      | [minutes, seconds] =>
        match pyInt minutes, pyInt seconds with
        | some m, some s => Except.ok (m * 60 + s)
        | _, _ => Except.error "ValueError: invalid literal for int"
      | _ => Except.error "ValueError: too many values to unpack"
    else Except.ok 0

/-- impl.py `impl_get_prestart_time_by_string`: empty or absent text gives 0;
a value containing `:` gives 0; otherwise the whole value is parsed with
`int()`, which raises `ValueError` on malformed text. -/
def impl_get_prestart_time_by_string (raw : Option String) : Except String Int :=
  match raw with
  | none => Except.ok 0
  | some raw =>
    if raw = "" then Except.ok 0
    else if raw.toList.contains ':' then Except.ok 0
    else
      match pyInt raw.toList with
      | some v => Except.ok v
      | none => Except.error "ValueError: invalid literal for int"

/-- base.py `FieldsetOverview`: the snapshot value object, one attribute per
constructor parameter, in constructor order. -/
structure FieldsetOverview where
  audience_display : FieldsetAudienceDisplay
  match_timer_content : Option String
  match_time : Int
  prestart_time : Int
  match_state : FieldsetState
  current_field_id : Option Int
  match_on_field : Option String
  saved_match_results : Option String
  autonomous_bonus : FieldsetAutonomousBonus
  play_sounds : Bool
  show_results_automatically : Bool
  active_match : FieldsetActiveMatch
deriving DecidableEq, BEq, Repr

/-- The readable state of one fieldset window, i.e. what the pywinauto
control wrappers created by `ImplFieldset.set_window` would report:
check states of the radio buttons and checkboxes, the `texts()` lists of the
static controls, and the combo box selection index. -/
structure Handle where
  audienceChecks : FieldsetAudienceDisplay → Bool
  matchTimerTexts : List String
  matchStateTexts : List String
  fieldSelectIndex : Int
  matchOnFieldTexts : List String
  savedMatchResultsTexts : List String
  bonusChecks : FieldsetAutonomousBonus → Bool
  playSoundsCheck : Bool
  showResultsCheck : Bool

/-- The keys of the `_audience_display_buttons` dictionary: displays
available for the competition, in enum definition order. -/
def displaysFor (c : Competition) : List FieldsetAudienceDisplay :=
  allDisplays.filter (fun d => d.available_for c)

/-- impl.py `impl_get_audience_display`: scan the display buttons in
dictionary order and return the first checked one; raise `ValueError` if no
button is checked. -/
def impl_get_audience_display (h : Handle) (c : Competition) :
    Except String FieldsetAudienceDisplay :=
  match (displaysFor c).find? (fun d => h.audienceChecks d) with
  | some d => Except.ok d
  | none => Except.error "ValueError: No display found"

/-- impl.py `impl_get_audience_display_lazy`: look up the last display in
the button dictionary (a missing key would raise `KeyError`), reuse it when
its button is still checked, and fall back to the full scan otherwise. -/
def impl_get_audience_display_lazy (h : Handle) (c : Competition)
    (last : FieldsetAudienceDisplay) : Except String FieldsetAudienceDisplay :=
  if !(displaysFor c).contains last then Except.error "KeyError"
  else if h.audienceChecks last then Except.ok last
  else impl_get_audience_display h c

/-- impl.py `impl_get_match_timer_content`: the first element of the timer
control texts, or `None` when the list is empty. -/
def impl_get_match_timer_content (h : Handle) : Option String :=
  h.matchTimerTexts.head?

/-- impl.py `impl_get_match_state`: an empty texts list gives `Disabled`;
otherwise the first text is resolved through `FieldsetState.by_ui_name`. -/
def impl_get_match_state_texts (texts : List String) : Except String FieldsetState :=
  match texts with
  | [] => Except.ok FieldsetState.Disabled
  | t :: _ => FieldsetState.by_ui_name t

/-- impl.py `impl_get_match_state` applied to the state control of a handle. -/
def impl_get_match_state (h : Handle) : Except String FieldsetState :=
  impl_get_match_state_texts h.matchStateTexts

/-- impl.py `impl_get_current_field_id`: the combo box selection index, with
the sentinel 4294967295 mapped to `None`. -/
def impl_get_current_field_id (h : Handle) : Option Int :=
  if h.fieldSelectIndex = 4294967295 then none else some h.fieldSelectIndex

/-- Shared shape of `impl_get_match_on_field` and
`impl_get_saved_match_results`: first text of the control, with both an
empty texts list and an empty string collapsing to `None`. -/
def firstNonEmptyText (texts : List String) : Option String :=
  match texts with
  | [] => none
  | t :: _ => if t = "" then none else some t

/-- impl.py `impl_get_match_on_field`. -/
def impl_get_match_on_field (h : Handle) : Option String :=
  firstNonEmptyText h.matchOnFieldTexts

/-- impl.py `impl_get_saved_match_results`. -/
def impl_get_saved_match_results (h : Handle) : Option String :=
  firstNonEmptyText h.savedMatchResultsTexts

/-- impl.py `impl_get_active_match_type_by_string`: `None` means no active
match, the text `TO` means a timeout, anything else is a match. -/
def impl_get_active_match_type_by_string (raw : Option String) : FieldsetActiveMatch :=
  match raw with
  | none => FieldsetActiveMatch.NoActiveMatch
  | some raw => if raw = "TO" then FieldsetActiveMatch.Timeout else FieldsetActiveMatch.Match

/-- impl.py `impl_get_active_match_type`. -/
def impl_get_active_match_type (h : Handle) : FieldsetActiveMatch :=
  impl_get_active_match_type_by_string (impl_get_match_on_field h)

/-- impl.py `impl_is_play_sounds`. -/
def impl_is_play_sounds (h : Handle) : Bool := h.playSoundsCheck

/-- impl.py `impl_is_show_results_automatically`. -/
def impl_is_show_results_automatically (h : Handle) : Bool := h.showResultsCheck

/-- impl.py `impl_get_autonomous_bonus`: only valid for V5RC and outside a
timeout; otherwise scan the bonus buttons in dictionary order for the
checked one, raising `ValueError` when none is checked. -/
def impl_get_autonomous_bonus (h : Handle) (c : Competition) :
    Except String FieldsetAutonomousBonus :=
  if c ≠ Competition.V5RC then
    Except.error "ValueError: Autonomous bonus is not available for this competition"
  else if impl_get_active_match_type h = FieldsetActiveMatch.Timeout then
    Except.error "ValueError: Autonomous bonus is not available for timeout"
  else
    match allBonuses.find? (fun b => h.bonusChecks b) with
    | some b => Except.ok b
    | none => Except.error "ValueError: No bonus found"

/-- impl.py `impl_get_autonomous_bonus_lazy`: reuse the last bonus when its
button is still checked, fall back to the full scan otherwise.  This helper
exists in the source but is never called by `impl_get_fieldset_overview`. -/
def impl_get_autonomous_bonus_lazy (h : Handle) (c : Competition)
    (last : FieldsetAutonomousBonus) : Except String FieldsetAutonomousBonus :=
  if h.bonusChecks last then Except.ok last
  else impl_get_autonomous_bonus h c

/-- impl.py `impl_get_fieldset_overview`: the Poll Strategy.  With no
previous overview every field is read fresh from the handle (the
full-refresh path, including the unconditional autonomous-bonus scan).
With a previous overview the audience display is verified with the lazy
check, the timer text and derived times plus the match state are read
fresh, the field id / match-on-field / active-match group is reused unless
the fresh state is `Disabled` (in which case it is re-derived), and the
saved results, autonomous bonus and both checkbox settings are reused
unconditionally. -/
def impl_get_fieldset_overview (h : Handle) (c : Competition)
    (last : Option FieldsetOverview) : Except String FieldsetOverview :=
  match last with
  | none => do
    let audience_display ← impl_get_audience_display h c
    let match_timer_content := impl_get_match_timer_content h
    let match_time ← impl_get_match_time_by_string match_timer_content
    let prestart_time ← impl_get_prestart_time_by_string match_timer_content
    let match_state ← impl_get_match_state h
    let current_field_id := impl_get_current_field_id h
    let match_on_field := impl_get_match_on_field h
    let saved_match_results := impl_get_saved_match_results h
    let autonomous_bonus ← impl_get_autonomous_bonus h c
    let play_sounds := impl_is_play_sounds h
    let show_results_automatically := impl_is_show_results_automatically h
    let active_match := impl_get_active_match_type_by_string match_on_field
    Except.ok {
      audience_display := audience_display
      match_timer_content := match_timer_content
      match_time := match_time
      prestart_time := prestart_time
      match_state := match_state
      current_field_id := current_field_id
      match_on_field := match_on_field
      saved_match_results := saved_match_results
      autonomous_bonus := autonomous_bonus
      play_sounds := play_sounds
      show_results_automatically := show_results_automatically
      active_match := active_match }
  | some lastOv => do
    let audience_display ← impl_get_audience_display_lazy h c lastOv.audience_display
    let match_timer_content := impl_get_match_timer_content h
    let match_time ← impl_get_match_time_by_string match_timer_content
    let prestart_time ← impl_get_prestart_time_by_string match_timer_content
    let match_state ← impl_get_match_state h
    let fieldGroup :=
      if match_state ≠ FieldsetState.Disabled then
        (lastOv.current_field_id, lastOv.match_on_field, lastOv.active_match)
      else
        let mof := impl_get_match_on_field h
        (impl_get_current_field_id h, mof, impl_get_active_match_type_by_string mof)
    Except.ok {
      audience_display := audience_display
      match_timer_content := match_timer_content
      match_time := match_time
      prestart_time := prestart_time
      match_state := match_state
      current_field_id := fieldGroup.1
      match_on_field := fieldGroup.2.1
      saved_match_results := lastOv.saved_match_results
      autonomous_bonus := lastOv.autonomous_bonus
      play_sounds := lastOv.play_sounds
      show_results_automatically := lastOv.show_results_automatically
      active_match := fieldGroup.2.2 }

/-- impl.py `ImplBridgeEngine._monitor_fieldset`: `CACHE_CYCLE = 10`. -/
def cacheCycle : Nat := 10

/-- impl.py `ImplBridgeEngine._monitor_fieldset`:
`should_use_cache = self.low_cpu_usage and iteration % CACHE_CYCLE != 0`. -/
def shouldUseCache (lowCpu : Bool) (iteration : Nat) : Bool :=
  lowCpu && iteration % cacheCycle != 0

/-- One poll of the monitor loop combined with `ImplFieldset.get_overview`:
the loop passes `cache=should_use_cache`, and `get_overview` forwards the
stored previous overview only when `cache` is true
(`self._last_overview if cache else None`). -/
def monitorPoll (lowCpu : Bool) (iteration : Nat) (h : Handle) (c : Competition)
    (last : Option FieldsetOverview) : Except String FieldsetOverview :=
  impl_get_fieldset_overview h c (if shouldUseCache lowCpu iteration then last else none)

/-- CPython hash modulus for int hashing, 2 ^ 61 - 1. -/
def pyHashModulus : Int := 2305843009213693951

/-- CPython `hash(int)`: reduce modulo 2 ^ 61 - 1 preserving the sign, then
map the reserved value -1 to -2. -/
def pyIntHash (n : Int) : Int :=
  let m := if 0 ≤ n then n % pyHashModulus else -((-n) % pyHashModulus)
  if m = -1 then -2 else m

/-- CPython `hash(bool)`: booleans are ints, so True hashes to 1 and False
to 0. -/
def pyBoolHash (b : Bool) : Int := if b then 1 else 0

/-- 2 ^ 64, the modulus of `Py_uhash_t` arithmetic. -/
def u64Mod : Nat := 18446744073709551616

/-- Rotate a 64-bit value left by 31 bits (`_PyHASH_XXROTATE`). -/
def rotl31 (x : Nat) : Nat := ((x * 2147483648) % u64Mod) + (x / 8589934592)

/-- xxHash prime 1 used by the CPython tuple hash. -/
def xxprime1 : Nat := 11400714785074694791

/-- xxHash prime 2 used by the CPython tuple hash. -/
def xxprime2 : Nat := 14029467366897019727

/-- xxHash prime 5 used by the CPython tuple hash. -/
def xxprime5 : Nat := 2870177450012600261

/-- Accumulator loop of the CPython (3.8+) tuple hash over the lanes, i.e.
the element hashes cast to `Py_uhash_t`. -/
def pyTupleHashAcc : List Nat → Nat → Nat
  | [], acc => acc
  | lane :: rest, acc =>
    pyTupleHashAcc rest ((rotl31 ((acc + lane * xxprime2) % u64Mod) * xxprime1) % u64Mod)

/-- Cast a signed element hash to `Py_uhash_t` (two's complement mod 2^64). -/
def toU64 (i : Int) : Nat := (i % (18446744073709551616 : Int)).toNat

/-- CPython (3.8+) `tuple.__hash__` over the element hashes: the xxHash
accumulator loop, the length mix-in, the -1 fixup, and the signed
reinterpretation of the 64-bit accumulator. -/
def pyTupleHash (lanes : List Int) : Int :=
  let acc0 := pyTupleHashAcc (lanes.map toU64) xxprime5
  let acc1 := (acc0 + (lanes.length ^^^ (xxprime5 ^^^ 3527539))) % u64Mod
  let acc2 := if acc1 = u64Mod - 1 then 1546275796 else acc1
  if acc2 < 9223372036854775808 then (acc2 : Int) else (acc2 : Int) - (u64Mod : Int)

/-- The hashes CPython assigns to the non-int components of a
`FieldsetOverview`: strings are salted SipHash, `None` and enum members hash
by object identity, so within one process these are fixed but unknown
functions of the value.  Any such assignment is admissible; equal values
always receive equal hashes. -/
structure PyHashEnv where
  strHash : String → Int
  noneHash : Int
  displayHash : FieldsetAudienceDisplay → Int
  stateHash : FieldsetState → Int
  activeHash : FieldsetActiveMatch → Int
  bonusHash : FieldsetAutonomousBonus → Int

/-- Hash of an optional string field (`None` or `str`). -/
def optStrHash (env : PyHashEnv) : Option String → Int
  | none => env.noneHash
  | some s => env.strHash s

/-- Hash of the optional int field `current_field_id`. -/
def optIntHash (env : PyHashEnv) : Option Int → Int
  | none => env.noneHash
  | some n => pyIntHash n

/-- base.py `FieldsetOverview.__hash__`: the hashes of the twelve attributes
in the order they are placed into the hashed tuple. -/
def overviewLanes (env : PyHashEnv) (o : FieldsetOverview) : List Int :=
  [env.displayHash o.audience_display,
   optStrHash env o.match_timer_content,
   pyIntHash o.match_time,
   pyIntHash o.prestart_time,
   env.stateHash o.match_state,
   optIntHash env o.current_field_id,
   optStrHash env o.match_on_field,
   optStrHash env o.saved_match_results,
   env.bonusHash o.autonomous_bonus,
   pyBoolHash o.play_sounds,
   pyBoolHash o.show_results_automatically,
   env.activeHash o.active_match]

/-- base.py `FieldsetOverview.__hash__`: the CPython hash of the 12-tuple of
attributes. -/
def overviewHash (env : PyHashEnv) (o : FieldsetOverview) : Int :=
  pyTupleHash (overviewLanes env o)

/-- base.py `FieldsetOverview.__eq__`: after the isinstance check (always
true here), the two hashes are compared; field values themselves are never
compared. -/
def overviewEq (env : PyHashEnv) (a b : FieldsetOverview) : Bool :=
  overviewHash env a == overviewHash env b

/-- Python `self._last_overview != overview` in `ImplFieldset.get_overview`:
`None` compares unequal to any overview, and two overviews compare via
`FieldsetOverview.__eq__`. -/
def lastOverviewDiffers (env : PyHashEnv) (last : Option FieldsetOverview)
    (ov : FieldsetOverview) : Bool :=
  match last with
  | none => true
  | some p => !(overviewEq env p ov)

/-- A concrete admissible `PyHashEnv` used to evaluate closed statements:
simple injective-on-the-enums integer assignments. -/
def sampleHashEnv : PyHashEnv where
  strHash := fun s => Int.ofNat (s.length + 1000)
  noneHash := 17
  displayHash := fun d => Int.ofNat (allDisplays.indexOf d + 100)
  stateHash := fun st => Int.ofNat (allStates.indexOf st + 200)
  activeHash := fun a =>
    Int.ofNat (([FieldsetActiveMatch.NoActiveMatch, FieldsetActiveMatch.Timeout,
      FieldsetActiveMatch.Match].indexOf a) + 300)
  bonusHash := fun b => Int.ofNat (allBonuses.indexOf b + 400)

/-- The Python attributes relevant to the overview event.  base.py
`Fieldset.__init__` assigns only `overview_updated_event`; impl.py
`ImplFieldset.get_overview` reads `overview_event`, which is assigned
nowhere, so that read raises `AttributeError`. -/
inductive EventAttr where
  | overview_updated_event
  | overview_event
deriving DecidableEq, BEq, Repr

/-- The event attributes actually assigned on a `Fieldset`
(base.py line 508). -/
def fieldsetAssignedAttrs : List EventAttr := [EventAttr.overview_updated_event]

/-- The attribute name `ImplFieldset.get_overview` triggers
(impl.py line 986). -/
def getOverviewTriggerAttr : EventAttr := EventAttr.overview_event

/-- State of the change-notification part of `ImplFieldset.get_overview`:
the retained previous overview and the log of payloads delivered to
observers so far. -/
structure NotifyState where
  lastOverview : Option FieldsetOverview
  invocations : List FieldsetOverview
deriving DecidableEq, BEq, Repr

/-- The tail of `ImplFieldset.get_overview` fed with the overview `ov`
computed for this poll: when the previous overview is absent or differs,
the code evaluates `self.overview_event.trigger(overview)`.  Because that
attribute is never assigned, the access raises `AttributeError` before
`self._last_overview` is updated; had the assigned attribute been used, the
observers would receive `ov` and the overview would be retained. -/
def getOverviewNotify (env : PyHashEnv) (s : NotifyState) (ov : FieldsetOverview) :
    Except String NotifyState :=
  if lastOverviewDiffers env s.lastOverview ov then
    if fieldsetAssignedAttrs.contains getOverviewTriggerAttr then
      Except.ok { lastOverview := some ov, invocations := s.invocations ++ [ov] }
    else
      Except.error "AttributeError: ImplFieldset object has no attribute overview_event"
  else
    Except.ok { lastOverview := some ov, invocations := s.invocations }

/-- The same notification step with the attribute slip repaired, i.e. what
the code does once `trigger` is reached on the event that
`Fieldset.__init__` declares and web.py subscribes to. -/
def getOverviewNotifyFixed (env : PyHashEnv) (s : NotifyState) (ov : FieldsetOverview) :
    NotifyState :=
  if lastOverviewDiffers env s.lastOverview ov then
    { lastOverview := some ov, invocations := s.invocations ++ [ov] }
  else
    { lastOverview := some ov, invocations := s.invocations }

/-- Run a sequence of computed overviews through the faithful notification
step, stopping at the first raised exception. -/
def runNotifySeq (env : PyHashEnv) : List FieldsetOverview → NotifyState →
    Except String NotifyState
  | [], s => Except.ok s
  | ov :: rest, s =>
    match getOverviewNotify env s ov with
    | Except.ok s2 => runNotifySeq env rest s2
    | Except.error e => Except.error e

/-- Run a sequence of computed overviews through the repaired notification
step. -/
def runNotifySeqFixed (env : PyHashEnv) : List FieldsetOverview → NotifyState → NotifyState
  | [], s => s
  | ov :: rest, s => runNotifySeqFixed env rest (getOverviewNotifyFixed env s ov)

/-- Observers are identified by numbers; base.py `Event` stores them in a
duplicate-free list (`add_listener` refuses duplicates). -/
abbrev Obs := Nat

/-- base.py `Event.remove_listener`: a no-op when the function is not
registered, otherwise `list.remove`, which deletes the first occurrence. -/
def removeListener (l : List Obs) (f : Obs) : List Obs :=
  if l.contains f then l.erase f else l

/-- Effect of invoking one observer: the set of observers its callback
removes from the same event while the notification is in flight. -/
def applyCallback (eff : Obs → List Obs) (l : List Obs) (f : Obs) : List Obs :=
  (eff f).foldl removeListener l

/-- base.py `Event.trigger` iterates `for func in self.__listeners` over the
live list: the Python list iterator yields `listeners[i]` for increasing
`i` against the current list, so mutations by callbacks are visible to the
iterator.  Returns the final list and the observers invoked, in order.  The
first argument is fuel, which is sufficient whenever callbacks only remove
listeners. -/
def triggerGo (eff : Obs → List Obs) : Nat → Nat → List Obs → List Obs × List Obs
  | 0, _, l => (l, [])
  | fuel + 1, i, l =>
    match l[i]? with
    | none => (l, [])
    | some f =>
      let l2 := applyCallback eff l f
      let r := triggerGo eff fuel (i + 1) l2
      (r.1, f :: r.2)

/-- base.py `Event.trigger` on a listener list, with callbacks that may call
`remove_listener` during the dispatch. -/
def trigger (eff : Obs → List Obs) (l : List Obs) : List Obs × List Obs :=
  triggerGo eff (l.length + 1) 0 l

/-- Which button `impl_start_match` clicks. -/
inductive StartClick where
  | startButton
  | resumeButton
deriving DecidableEq, BEq, Repr

/-- impl.py `impl_start_match`: read the current state from the state
control; in `Pause` click the resume button; in `Disabled` with the resume
button enabled click the start button; otherwise raise `ValueError` without
clicking anything.  The result records the clicks performed alongside the
success or error outcome (every raised error is rewrapped by the enclosing
`except` clause). -/
def impl_start_match (stateTexts : List String) (resumeEnabled : Bool) :
    List StartClick × Except String Unit :=
  match impl_get_match_state_texts stateTexts with
  | Except.error e => ([], Except.error ("ValueError: Error starting match: " ++ e))
  | Except.ok st =>
    if st = FieldsetState.Pause then
      ([StartClick.resumeButton], Except.ok ())
    else if st = FieldsetState.Disabled ∧ resumeEnabled then
      ([StartClick.startButton], Except.ok ())
    else
      ([], Except.error "ValueError: Unable to start match. The match might be started already or ended.")

/-- Observable state of `ImplBridgeEngine`: the running flag, the
registered fieldset titles, and the titles with a live monitoring thread
and with a stop event (`_threads` and `_stop_events` bookkeeping). -/
structure EngineState where
  running : Bool
  fieldsets : List String
  threads : List String
  stopEvents : List String
deriving DecidableEq, BEq, Repr

/-- impl.py `ImplBridgeEngine._start_monitoring_thread`: return early when a
live thread for the title exists; otherwise store a fresh stop event and
start and record a thread. -/
def startMonitoringThread (s : EngineState) (title : String) : EngineState :=
  if s.threads.contains title then s
  else
    { s with
      stopEvents := if s.stopEvents.contains title then s.stopEvents
                    else s.stopEvents ++ [title]
      threads := s.threads ++ [title] }

/-- impl.py `ImplBridgeEngine.start`: under the lock, return when already
running, otherwise set the running flag and start a monitoring thread for
every registered fieldset. -/
def engineStart (s : EngineState) : EngineState :=
  if s.running then s
  else s.fieldsets.foldl startMonitoringThread { s with running := true }

/-- impl.py `ImplBridgeEngine.stop`: under the lock, return when not
running, otherwise clear the running flag, signal and join every thread,
and clear the thread and stop-event bookkeeping (fieldsets stay
registered). -/
def engineStop (s : EngineState) : EngineState :=
  if !s.running then s
  else { s with running := false, threads := [], stopEvents := [] }

/-- Loop-local state of one `_monitor_fieldset` iteration: the iteration
counter and whether the fieldset window is currently connected. -/
structure LoopState where
  iteration : Nat
  connected : Bool
deriving DecidableEq, BEq, Repr

/-- Observable actions of one pass through the `while` body of
`_monitor_fieldset`. -/
structure StepTrace where
  markedDisconnected : Bool
  reconnectAttempts : Nat
  backoffSlept : Bool
  continuedToTop : Bool
deriving DecidableEq, BEq, Repr

/-- One pass through the body of impl.py `_monitor_fieldset`, parameterised
by whether the `fieldset.get_overview` call raises (`pollOk = false`) and
whether `fieldset.reobtain_window` succeeds.  On a poll failure the handler
sets the window to `None`, attempts exactly one reconnect, and on a failed
reconnect sleeps 1 second and executes `continue`, skipping the iteration
advance and the rate-limit sleep; on a successful reconnect control falls
through to the normal iteration advance. -/
def monitorStep (pollOk reconnectOk : Bool) (s : LoopState) : LoopState × StepTrace :=
  if pollOk then
    ({ s with iteration := (s.iteration + 1) % cacheCycle },
     { markedDisconnected := false, reconnectAttempts := 0,
       backoffSlept := false, continuedToTop := false })
  else
    let s1 := { s with connected := false }
    if reconnectOk then
      let s2 := { s1 with connected := true }
      ({ s2 with iteration := (s2.iteration + 1) % cacheCycle },
       { markedDisconnected := true, reconnectAttempts := 1,
         backoffSlept := false, continuedToTop := false })
    else
      (s1,
       { markedDisconnected := true, reconnectAttempts := 1,
         backoffSlept := true, continuedToTop := true })

/-- A concrete connected handle: audience display Blank checked, no timer
text, state text PAUSED, field 2 selected, match Q1 on field, bonus Red
checked. -/
def sampleHandle : Handle where
  audienceChecks := fun d => d == FieldsetAudienceDisplay.Blank
  matchTimerTexts := []
  matchStateTexts := ["PAUSED"]
  fieldSelectIndex := 2
  matchOnFieldTexts := ["Q1"]
  savedMatchResultsTexts := ["R"]
  bonusChecks := fun b => b == FieldsetAutonomousBonus.Red
  playSoundsCheck := true
  showResultsCheck := false

/-- A previous overview consistent with `sampleHandle`. -/
def samplePrev : FieldsetOverview where
  audience_display := FieldsetAudienceDisplay.Blank
  match_timer_content := some "0:05"
  match_time := 5
  prestart_time := 0
  match_state := FieldsetState.DriverControl
  current_field_id := some 2
  match_on_field := some "Q1"
  saved_match_results := some "R"
  autonomous_bonus := FieldsetAutonomousBonus.Red
  play_sounds := true
  show_results_automatically := true
  active_match := FieldsetActiveMatch.Match

/-- The overview produced by a cached poll of `sampleHandle` with previous
overview `samplePrev`. -/
def sampleOv : FieldsetOverview where
  audience_display := FieldsetAudienceDisplay.Blank
  match_timer_content := none
  match_time := 0
  prestart_time := 0
  match_state := FieldsetState.Pause
  current_field_id := some 2
  match_on_field := some "Q1"
  saved_match_results := some "R"
  autonomous_bonus := FieldsetAutonomousBonus.Red
  play_sounds := true
  show_results_automatically := true
  active_match := FieldsetActiveMatch.Match

/-- A handle on which the autonomous bonus and both checkboxes have changed
behind the cache: the Blue bonus button is checked (Red is not) and the
play-sounds checkbox is unchecked. -/
def handleB : Handle where
  audienceChecks := fun d => d == FieldsetAudienceDisplay.Logo
  matchTimerTexts := ["12"]
  matchStateTexts := ["DRIVER CONTROL"]
  fieldSelectIndex := 1
  matchOnFieldTexts := ["Q2"]
  savedMatchResultsTexts := ["saved"]
  bonusChecks := fun b => b == FieldsetAutonomousBonus.Blue
  playSoundsCheck := false
  showResultsCheck := false

/-- A previous overview recording bonus Red and play-sounds on, both of
which no longer match `handleB`. -/
def prevB : FieldsetOverview where
  audience_display := FieldsetAudienceDisplay.Logo
  match_timer_content := some "12"
  match_time := 0
  prestart_time := 12
  match_state := FieldsetState.DriverControl
  current_field_id := some 1
  match_on_field := some "Q2"
  saved_match_results := some "saved"
  autonomous_bonus := FieldsetAutonomousBonus.Red
  play_sounds := true
  show_results_automatically := true
  active_match := FieldsetActiveMatch.Match

/-- The overview produced by a cached poll of `handleB` with previous
overview `prevB`: the stale bonus and checkbox values survive. -/
def ovB : FieldsetOverview where
  audience_display := FieldsetAudienceDisplay.Logo
  match_timer_content := some "12"
  match_time := 0
  prestart_time := 12
  match_state := FieldsetState.DriverControl
  current_field_id := some 1
  match_on_field := some "Q2"
  saved_match_results := some "saved"
  autonomous_bonus := FieldsetAutonomousBonus.Red
  play_sounds := true
  show_results_automatically := true
  active_match := FieldsetActiveMatch.Match

/-- Base overview for the hash-collision pair: every field at a fixed
value. -/
def collisionBase : FieldsetOverview where
  audience_display := FieldsetAudienceDisplay.Blank
  match_timer_content := none
  match_time := 0
  prestart_time := 0
  match_state := FieldsetState.Disabled
  current_field_id := none
  match_on_field := none
  saved_match_results := none
  autonomous_bonus := FieldsetAutonomousBonus.NoBonus
  play_sounds := false
  show_results_automatically := false
  active_match := FieldsetActiveMatch.NoActiveMatch

/-- First snapshot of the collision pair: `match_time = -1`
(CPython hashes -1 to -2). -/
def collisionA : FieldsetOverview := { collisionBase with match_time := -1 }

/-- Second snapshot of the collision pair: `match_time = -2`
(CPython hashes -2 to -2 as well). -/
def collisionB : FieldsetOverview := { collisionBase with match_time := -2 }

/-- Snapshot A of the change-notification test sequence. -/
def ovA2 : FieldsetOverview := { collisionBase with match_time := 0 }

/-- Snapshot B of the change-notification test sequence. -/
def ovB2 : FieldsetOverview := { collisionBase with match_time := 1 }

/-- Snapshot C of the change-notification test sequence. -/
def ovC2 : FieldsetOverview := { collisionBase with match_time := 2 }

/-- The callback pattern of the dispatch counterexample: observer 0 removes
itself from the event while the notification is in flight; every other
observer leaves the list alone. -/
def skipEff : Obs → List Obs := fun f => if f = 0 then [0] else []


/-- Reduction of a successful `Except` bind. -/
theorem except_bind_ok {α β : Type} (a : α) (f : α → Except String β) :
    (Except.ok a >>= f) = f a := rfl

/-- Reduction of a failed `Except` bind. -/
theorem except_bind_error {α β : Type} (e : String) (f : α → Except String β) :
    ((Except.error e : Except String α) >>= f) = Except.error e := rfl

/-- Properties of a successful cached poll
(`impl_get_fieldset_overview` with a previous overview): the audience
display comes from the lazy check, the timer text, derived times and match
state are read fresh, the saved results, bonus and checkbox settings are
copied from the previous overview, and the field-id group is copied exactly
when the fresh state is not `Disabled` and re-read from the handle when it
is. -/
theorem cachedOverviewSpec (h : Handle) (c : Competition) (prev ov : FieldsetOverview)
    (hpoll : impl_get_fieldset_overview h c (some prev) = Except.ok ov) :
    impl_get_audience_display_lazy h c prev.audience_display = Except.ok ov.audience_display
    ∧ ov.match_timer_content = impl_get_match_timer_content h
    ∧ impl_get_match_time_by_string (impl_get_match_timer_content h) = Except.ok ov.match_time
    ∧ impl_get_prestart_time_by_string (impl_get_match_timer_content h) = Except.ok ov.prestart_time
    ∧ impl_get_match_state h = Except.ok ov.match_state
    ∧ ov.saved_match_results = prev.saved_match_results
    ∧ ov.autonomous_bonus = prev.autonomous_bonus
    ∧ ov.play_sounds = prev.play_sounds
    ∧ ov.show_results_automatically = prev.show_results_automatically
    ∧ (ov.match_state ≠ FieldsetState.Disabled →
        ov.current_field_id = prev.current_field_id
        ∧ ov.match_on_field = prev.match_on_field
        ∧ ov.active_match = prev.active_match)
    ∧ (ov.match_state = FieldsetState.Disabled →
        ov.current_field_id = impl_get_current_field_id h
        ∧ ov.match_on_field = impl_get_match_on_field h
        ∧ ov.active_match = impl_get_active_match_type h) := by
  simp only [impl_get_fieldset_overview] at hpoll
  cases hA : impl_get_audience_display_lazy h c prev.audience_display with
  | error e => rw [hA, except_bind_error] at hpoll; exact absurd hpoll (by simp)
  | ok ad =>
  rw [hA, except_bind_ok] at hpoll
  cases hT : impl_get_match_time_by_string (impl_get_match_timer_content h) with
  | error e => rw [hT, except_bind_error] at hpoll; exact absurd hpoll (by simp)
  | ok mt =>
  rw [hT, except_bind_ok] at hpoll
  cases hP : impl_get_prestart_time_by_string (impl_get_match_timer_content h) with
  | error e => rw [hP, except_bind_error] at hpoll; exact absurd hpoll (by simp)
  | ok pt =>
  rw [hP, except_bind_ok] at hpoll
  cases hS : impl_get_match_state h with
  | error e => rw [hS, except_bind_error] at hpoll; exact absurd hpoll (by simp)
  | ok st =>
  rw [hS, except_bind_ok] at hpoll
  simp only [Except.ok.injEq] at hpoll
  subst hpoll
  by_cases hd : st = FieldsetState.Disabled
  · subst hd
    refine ⟨rfl, rfl, rfl, rfl, rfl, rfl, rfl, rfl, rfl,
      fun hcon => absurd rfl hcon, fun _ => ?_⟩
    refine ⟨?_, ?_, ?_⟩ <;> simp [impl_get_active_match_type]
  · refine ⟨rfl, rfl, rfl, rfl, rfl, rfl, rfl, rfl, rfl,
      fun _ => ?_, fun hcon => absurd hcon hd⟩
    refine ⟨?_, ?_, ?_⟩ <;> simp [hd]

/-- Claim C1: with cache-cycle length 10 (low-CPU monitoring), a poll whose
previous snapshot is absent or whose iteration index is congruent to 0 mod
10 reads every field fresh from the handle (it coincides with the
full-refresh read); a poll on iterations 1-9 that has a previous snapshot
reuses the designated cacheable fields from that previous snapshot, unless
the freshly read lifecycle state equals `Disabled`, in which case current
field id, match-on-field and active-match type are re-derived from source
even off-cycle. -/
theorem claim_C1_cache_cycle_policy (h : Handle) (c : Competition) (iter : Nat)
    (last : Option FieldsetOverview) :
    (last = none ∨ iter % cacheCycle = 0 →
      monitorPoll true iter h c last = impl_get_fieldset_overview h c none)
    ∧ (∀ prev ov, last = some prev → iter % cacheCycle ≠ 0 →
        monitorPoll true iter h c last = Except.ok ov →
        impl_get_match_state h = Except.ok ov.match_state
        ∧ ov.saved_match_results = prev.saved_match_results
        ∧ ov.autonomous_bonus = prev.autonomous_bonus
        ∧ ov.play_sounds = prev.play_sounds
        ∧ ov.show_results_automatically = prev.show_results_automatically
        ∧ (ov.match_state ≠ FieldsetState.Disabled →
            ov.current_field_id = prev.current_field_id
            ∧ ov.match_on_field = prev.match_on_field
            ∧ ov.active_match = prev.active_match)
        ∧ (ov.match_state = FieldsetState.Disabled →
            ov.current_field_id = impl_get_current_field_id h
            ∧ ov.match_on_field = impl_get_match_on_field h
            ∧ ov.active_match = impl_get_active_match_type h)) := by
  constructor
  · rintro (rfl | hIter)
    · unfold monitorPoll
      cases shouldUseCache true iter <;> rfl
    · unfold monitorPoll shouldUseCache
      simp [hIter]
  · rintro prev ov rfl hIter hpoll
    have hsc : shouldUseCache true iter = true := by
      unfold shouldUseCache
      simp [hIter]
    rw [monitorPoll, hsc] at hpoll
    simp only [if_true] at hpoll
    obtain ⟨h1, h2, h3, h4, h5, h6, h7, h8, h9, h10, h11⟩ :=
      cachedOverviewSpec h c prev ov hpoll
    exact ⟨h5, h6, h7, h8, h9, h10, h11⟩

/-- Witness for claim C1: on `sampleHandle` a poll at iteration 0 is a full
refresh, and a cached poll at iteration 1 with previous overview
`samplePrev` reuses the cacheable fields. -/
theorem claim_C1_cache_cycle_policy_witness :
    monitorPoll true 0 sampleHandle Competition.V5RC (some samplePrev)
      = impl_get_fieldset_overview sampleHandle Competition.V5RC none
    ∧ sampleOv.saved_match_results = samplePrev.saved_match_results
    ∧ sampleOv.autonomous_bonus = samplePrev.autonomous_bonus
    ∧ sampleOv.current_field_id = samplePrev.current_field_id
    ∧ sampleOv.match_on_field = samplePrev.match_on_field
    ∧ sampleOv.active_match = samplePrev.active_match := by
  have h1 := (claim_C1_cache_cycle_policy sampleHandle Competition.V5RC 0 (some samplePrev)).1
    (Or.inr (by decide))
  have h2 := (claim_C1_cache_cycle_policy sampleHandle Competition.V5RC 1 (some samplePrev)).2
    samplePrev sampleOv rfl (by decide) (by decide)
  have h3 := h2.2.2.2.2.2.1 (by decide)
  exact ⟨h1, h2.2.1, h2.2.2.1, h3.1, h3.2.1, h3.2.2⟩

/-- Claim C5 (amended): on a cached poll only the audience display is
verified with a cheap is-still-current check (reusing the previous value
when its button is still checked and falling back to the full scan when it
is not); the autonomous bonus, both boolean settings and the saved match
results are reused from the previous snapshot unconditionally, without any
check. -/
theorem claim_C5_cache_verification (h : Handle) (c : Competition)
    (prev ov : FieldsetOverview)
    (hpoll : impl_get_fieldset_overview h c (some prev) = Except.ok ov) :
    (h.audienceChecks prev.audience_display = true →
      ov.audience_display = prev.audience_display)
    ∧ (h.audienceChecks prev.audience_display = false →
      impl_get_audience_display h c = Except.ok ov.audience_display)
    ∧ ov.autonomous_bonus = prev.autonomous_bonus
    ∧ ov.play_sounds = prev.play_sounds
    ∧ ov.show_results_automatically = prev.show_results_automatically
    ∧ ov.saved_match_results = prev.saved_match_results := by
  obtain ⟨h1, _, _, _, _, h6, h7, h8, h9, _, _⟩ := cachedOverviewSpec h c prev ov hpoll
  refine ⟨?_, ?_, h7, h8, h9, h6⟩
  · intro hc
    cases hav : (displaysFor c).contains prev.audience_display with
    | false => simp [impl_get_audience_display_lazy, hav] at h1
    | true =>
      simp [impl_get_audience_display_lazy, hav, hc] at h1
      exact h1.symm
  · intro hc
    cases hav : (displaysFor c).contains prev.audience_display with
    | false => simp [impl_get_audience_display_lazy, hav] at h1
    | true =>
      simp only [impl_get_audience_display_lazy, hav, hc] at h1
      simpa using h1

/-- Counterexample for claim C5: on `handleB` the previously observed bonus
button (Red) is no longer checked — the is-still-current check would fail —
and a full read would give Blue, yet the cached poll still reports the
stale Red bonus; similarly the play-sounds checkbox now reads false but the
cached poll reports the stale true. -/
theorem claim_C5_counterexample :
    impl_get_fieldset_overview handleB Competition.V5RC (some prevB) = Except.ok ovB
    ∧ handleB.bonusChecks prevB.autonomous_bonus = false
    ∧ impl_get_autonomous_bonus handleB Competition.V5RC
      = Except.ok FieldsetAutonomousBonus.Blue
    ∧ ovB.autonomous_bonus = FieldsetAutonomousBonus.Red
    ∧ impl_is_play_sounds handleB = false
    ∧ ovB.play_sounds = true := by
  refine ⟨?_, ?_, ?_, ?_, ?_, ?_⟩ <;> decide

/-- Witness for claim C5 (amended): instantiated on the concrete cached
poll of `handleB`. -/
theorem claim_C5_cache_verification_witness :
    ovB.audience_display = prevB.audience_display
    ∧ ovB.autonomous_bonus = prevB.autonomous_bonus
    ∧ ovB.play_sounds = prevB.play_sounds
    ∧ ovB.saved_match_results = prevB.saved_match_results := by
  have h := claim_C5_cache_verification handleB Competition.V5RC prevB ovB (by decide)
  exact ⟨h.1 (by decide), h.2.2.1, h.2.2.2.1, h.2.2.2.2.2⟩

/-- CPython hashes both -1 and -2 to -2, the collision behind the
counterexample for claim C3. -/
theorem pyIntHash_collision : pyIntHash (-1) = pyIntHash (-2) := by decide

/-- Claim C3 (amended): snapshot equality is implemented as equality of the
CPython hash of the 12-field tuple, so field-equal snapshots always compare
equal, but the converse fails: the concrete snapshots `collisionA` and
`collisionB` differ in `match_time` (-1 versus -2, whose int hashes
collide) yet compare equal under every admissible hash environment. -/
theorem claim_C3_snapshot_equality :
    (∀ (env : PyHashEnv) (a b : FieldsetOverview), a = b → overviewEq env a b = true)
    ∧ (∀ env : PyHashEnv, overviewEq env collisionA collisionB = true)
    ∧ collisionA ≠ collisionB := by
  refine ⟨?_, ?_, by decide⟩
  · rintro env a b rfl
    simp [overviewEq]
  · intro env
    have hl : overviewLanes env collisionA = overviewLanes env collisionB := by
      simp [overviewLanes, collisionA, collisionB, collisionBase, pyIntHash_collision]
    simp [overviewEq, overviewHash, hl]

/-- Witness for claim C3 (amended): the forward direction evaluated at a
concrete snapshot. -/
theorem claim_C3_snapshot_equality_witness :
    overviewEq sampleHashEnv collisionBase collisionBase = true :=
  claim_C3_snapshot_equality.1 sampleHashEnv collisionBase collisionBase rfl

/-- Counterexample for claim C3: two snapshots that differ in the
`match_time` field compare equal under the concrete hash environment,
because `hash(-1) == hash(-2)` in CPython makes the two 12-tuples hash
identically. -/
theorem claim_C3_counterexample :
    overviewEq sampleHashEnv collisionA collisionB = true ∧ collisionA ≠ collisionB := by
  constructor <;> decide

/-- Claim C2 (evaluated at the failing input): running the snapshot
sequence A, A, B, B, B, C through the faithful model of
`ImplFieldset.get_overview` raises `AttributeError` on the very first
change (the code triggers `self.overview_event`, an attribute that is never
assigned — base.py only defines `overview_updated_event`), so zero observer
invocations happen; with the attribute slip repaired the same sequence
yields exactly the three invocations A, B, C in order. -/
theorem claim_C2_change_notification :
    runNotifySeq sampleHashEnv [ovA2, ovA2, ovB2, ovB2, ovB2, ovC2]
      (NotifyState.mk none [])
      = Except.error "AttributeError: ImplFieldset object has no attribute overview_event"
    ∧ runNotifySeqFixed sampleHashEnv [ovA2, ovA2, ovB2, ovB2, ovB2, ovC2]
      (NotifyState.mk none [])
      = NotifyState.mk (some ovC2) [ovA2, ovB2, ovC2]
    ∧ ovA2 ≠ ovB2 ∧ ovB2 ≠ ovC2 ∧ ovA2 ≠ ovC2 := by
  refine ⟨?_, ?_, ?_, ?_, ?_⟩ <;> decide

/-- Claim C4 (amended): timer parsing as implemented.  A value containing
the separator parses as minutes:seconds provided it splits into exactly two
parts that are valid Python integer literals; a non-empty separator-free
value parses as a bare integer prestart time provided it is a valid integer
literal; empty or absent text yields 0 for both; malformed text raises
`ValueError` instead of parsing. -/
theorem claim_C4_timer_parsing :
    (∀ (raw : String) (m s : List Char) (mi si : Int),
      raw.toList.contains ':' = true →
      splitOnColon raw.toList = [m, s] →
      pyInt m = some mi → pyInt s = some si →
      impl_get_match_time_by_string (some raw) = Except.ok (mi * 60 + si)
      ∧ impl_get_prestart_time_by_string (some raw) = Except.ok 0)
    ∧ (∀ (raw : String) (v : Int), raw ≠ "" → raw.toList.contains ':' = false →
      pyInt raw.toList = some v →
      impl_get_match_time_by_string (some raw) = Except.ok 0
      ∧ impl_get_prestart_time_by_string (some raw) = Except.ok v)
    ∧ impl_get_match_time_by_string (some "") = Except.ok 0
    ∧ impl_get_prestart_time_by_string (some "") = Except.ok 0
    ∧ impl_get_match_time_by_string none = Except.ok 0
    ∧ impl_get_prestart_time_by_string none = Except.ok 0 := by
  refine ⟨?_, ?_, by decide, by decide, by decide, by decide⟩
  · intro raw m s mi si hcol hsplit hm hs
    have hne : ¬(raw = "") := by
      intro hr
      subst hr
      simp at hcol
    have hmem : ':' ∈ raw.data := by simpa using hcol
    simp only [String.toList] at hsplit
    constructor
    · simp [impl_get_match_time_by_string, hne, hmem, hsplit, hm, hs]
    · simp [impl_get_prestart_time_by_string, hne, hmem]
  · intro raw v hne hcol hv
    have hmem : ':' ∉ raw.data := by simpa using hcol
    simp only [String.toList] at hv
    constructor
    · simp [impl_get_match_time_by_string, hne, hmem]
    · simp [impl_get_prestart_time_by_string, hne, hmem, hv]

/-- Counterexample for claim C4: the non-empty separator-free value `a`
does not parse as a bare integer prestart time — `int` raises
`ValueError`. -/
theorem claim_C4_counterexample :
    "a" ≠ ""
    ∧ "a".toList.contains ':' = false
    ∧ impl_get_prestart_time_by_string (some "a")
      = Except.error "ValueError: invalid literal for int" := by
  refine ⟨?_, ?_, ?_⟩ <;> decide

/-- Witness for claim C4 (amended): the spec examples 01:30 and 45. -/
theorem claim_C4_timer_parsing_witness :
    impl_get_match_time_by_string (some "01:30") = Except.ok (1 * 60 + 30)
    ∧ impl_get_prestart_time_by_string (some "01:30") = Except.ok 0
    ∧ impl_get_match_time_by_string (some "45") = Except.ok 0
    ∧ impl_get_prestart_time_by_string (some "45") = Except.ok 45 := by
  have h1 := claim_C4_timer_parsing.1 "01:30" "01".toList "30".toList 1 30
    (by decide) (by decide) (by decide) (by decide)
  have h2 := claim_C4_timer_parsing.2.1 "45" 45 (by decide) (by decide) (by decide)
  exact ⟨h1.1, h1.2, h2.1, h2.2⟩

/-- Claim C6: when the poll of an iteration fails, the loop marks the
handle disconnected and attempts exactly one reconnect; a failed reconnect
sleeps the 1-second backoff and continues from the top with the iteration
counter unchanged; a successful reconnect falls through to the next
iteration (counter advanced, no backoff). -/
theorem claim_C6_connection_error_recovery (s : LoopState) (reconnectOk : Bool) :
    (monitorStep false reconnectOk s).2.markedDisconnected = true
    ∧ (monitorStep false reconnectOk s).2.reconnectAttempts = 1
    ∧ (reconnectOk = false →
        (monitorStep false reconnectOk s).2.backoffSlept = true
        ∧ (monitorStep false reconnectOk s).2.continuedToTop = true
        ∧ (monitorStep false reconnectOk s).1.iteration = s.iteration
        ∧ (monitorStep false reconnectOk s).1.connected = false)
    ∧ (reconnectOk = true →
        (monitorStep false reconnectOk s).2.backoffSlept = false
        ∧ (monitorStep false reconnectOk s).2.continuedToTop = false
        ∧ (monitorStep false reconnectOk s).1.iteration = (s.iteration + 1) % cacheCycle
        ∧ (monitorStep false reconnectOk s).1.connected = true) := by
  cases reconnectOk <;> simp [monitorStep]

/-- Witness for claim C6: a failing poll at iteration 3, with a failed and
with a successful reconnect. -/
theorem claim_C6_connection_error_recovery_witness :
    (monitorStep false false (LoopState.mk 3 true)).2.backoffSlept = true
    ∧ (monitorStep false false (LoopState.mk 3 true)).1.iteration = 3
    ∧ (monitorStep false true (LoopState.mk 3 true)).1.iteration = (3 + 1) % cacheCycle := by
  have h1 := (claim_C6_connection_error_recovery (LoopState.mk 3 true) false).2.2.1 rfl
  have h2 := (claim_C6_connection_error_recovery (LoopState.mk 3 true) true).2.2.2 rfl
  exact ⟨h1.1, h1.2.2.1, h2.2.2.1⟩

/-- With callbacks that leave the listener list alone, the index-based
iteration of `Event.trigger` visits exactly the suffix from the current
index on. -/
theorem triggerGo_noop (fuel : Nat) :
    ∀ (i : Nat) (l : List Obs), l.length - i ≤ fuel →
      triggerGo (fun _ => []) fuel i l = (l, l.drop i) := by
  induction fuel with
  | zero =>
    intro i l hlen
    have hle : l.length ≤ i := by omega
    simp [triggerGo, List.drop_eq_nil_of_le hle]
  | succ fuel ih =>
    intro i l hlen
    cases hg : l[i]? with
    | none =>
      have hle : l.length ≤ i := by
        by_contra hcon
        push_neg at hcon
        rw [List.getElem?_eq_getElem hcon] at hg
        exact Option.noConfusion hg
      simp [triggerGo, hg, List.drop_eq_nil_of_le hle]
    | some f =>
      have hlt : i < l.length := by
        by_contra hcon
        push_neg at hcon
        rw [List.getElem?_eq_none (by omega)] at hg
        exact Option.noConfusion hg
      have hcb : applyCallback (fun _ => []) l f = l := rfl
      have hrec := ih (i + 1) l (by omega)
      simp only [triggerGo, hg, hcb, hrec]
      have hdrop : l.drop i = l[i] :: l.drop (i + 1) :=
        List.drop_eq_getElem_cons hlt
      have hf : l[i] = f := by
        have hsome := List.getElem?_eq_getElem hlt
        rw [hg] at hsome
        injection hsome with hval
        exact hval.symm
      rw [hdrop, hf]

/-- Claim C7 (amended): `Event.trigger` iterates the live listener list
rather than a point-in-time copy.  When no callback mutates the list during
dispatch, every observer registered at dispatch start is invoked exactly
once, in registration order; but a callback that removes an already-visited
observer (such as itself) shifts later entries into visited positions, and
a later still-registered observer can be skipped (see the
counterexample). -/
theorem claim_C7_dispatch_live_list (l : List Obs) :
    trigger (fun _ => []) l = (l, l) := by
  have := triggerGo_noop (l.length + 1) 0 l (by omega)
  simpa [trigger] using this

/-- Counterexample for claim C7: with listeners 0, 1, 2 where the callback
of observer 0 removes observer 0 during dispatch, observer 1 stays
registered (it is in the final list) yet is never invoked — the invocation
list is 0, 2 — so a still-registered observer was skipped within that
notification. -/
theorem claim_C7_counterexample :
    trigger skipEff [0, 1, 2] = ([1, 2], [0, 2])
    ∧ (trigger skipEff [0, 1, 2]).1.contains 1 = true
    ∧ (trigger skipEff [0, 1, 2]).2.contains 1 = false := by
  refine ⟨?_, ?_, ?_⟩ <;> decide

/-- Claim C8 (amended): starting while the state is `DriverControl` fails
with `ValueError` and clicks nothing; starting while `Pause` clicks the
resume button and succeeds; starting while `Disabled` clicks the start
button and succeeds provided the resume-match button is enabled, and
otherwise fails with `ValueError` and clicks nothing. -/
theorem claim_C8_start_match_gating (texts : List String) (resumeEnabled : Bool) :
    (impl_get_match_state_texts texts = Except.ok FieldsetState.DriverControl →
      impl_start_match texts resumeEnabled
        = ([], Except.error "ValueError: Unable to start match. The match might be started already or ended."))
    ∧ (impl_get_match_state_texts texts = Except.ok FieldsetState.Pause →
      impl_start_match texts resumeEnabled = ([StartClick.resumeButton], Except.ok ()))
    ∧ (impl_get_match_state_texts texts = Except.ok FieldsetState.Disabled →
      impl_start_match texts resumeEnabled
        = if resumeEnabled then ([StartClick.startButton], Except.ok ())
          else ([], Except.error "ValueError: Unable to start match. The match might be started already or ended.")) := by
  refine ⟨fun hst => ?_, fun hst => ?_, fun hst => ?_⟩
  · simp [impl_start_match, hst]
  · simp [impl_start_match, hst]
  · cases resumeEnabled <;> simp [impl_start_match, hst]

/-- Witness for claim C8 (amended): the three state texts DRIVER CONTROL,
PAUSED and blank (Disabled), the latter with the resume button enabled. -/
theorem claim_C8_start_match_gating_witness :
    impl_start_match ["DRIVER CONTROL"] true
      = ([], Except.error "ValueError: Unable to start match. The match might be started already or ended.")
    ∧ impl_start_match ["PAUSED"] true = ([StartClick.resumeButton], Except.ok ())
    ∧ impl_start_match [""] true = ([StartClick.startButton], Except.ok ()) := by
  have h1 := (claim_C8_start_match_gating ["DRIVER CONTROL"] true).1 (by decide)
  have h2 := (claim_C8_start_match_gating ["PAUSED"] true).2.1 (by decide)
  have h3 := (claim_C8_start_match_gating [""] true).2.2 (by decide)
  exact ⟨h1, h2, h3⟩

/-- Counterexample for claim C8: with the blank state text the state is
`Disabled`, yet when the resume-match button is not enabled the start
command fails with `ValueError` and clicks nothing instead of starting the
match. -/
theorem claim_C8_counterexample :
    impl_get_match_state_texts [""] = Except.ok FieldsetState.Disabled
    ∧ impl_start_match [""] false
      = ([], Except.error "ValueError: Unable to start match. The match might be started already or ended.") := by
  constructor <;> decide

/-- `_start_monitoring_thread` only touches the thread and stop-event
bookkeeping, never the running flag or the registered fieldsets. -/
theorem startThreads_preserves (l : List String) :
    ∀ s : EngineState, ((l.foldl startMonitoringThread s).running = s.running)
      ∧ ((l.foldl startMonitoringThread s).fieldsets = s.fieldsets) := by
  induction l with
  | nil => intro s; exact ⟨rfl, rfl⟩
  | cons t ts ih =>
    intro s
    have h1 : (startMonitoringThread s t).running = s.running := by
      unfold startMonitoringThread
      split <;> rfl
    have h2 : (startMonitoringThread s t).fieldsets = s.fieldsets := by
      unfold startMonitoringThread
      split <;> rfl
    simp only [List.foldl_cons]
    exact ⟨(ih _).1.trans h1, (ih _).2.trans h2⟩

/-- Claim C9: `start` and `stop` are idempotent on the observable engine
state (running flag, registered fieldsets, thread and stop-event
bookkeeping): the second call in a row is a no-op. -/
theorem claim_C9_idempotent_lifecycle (s : EngineState) :
    engineStart (engineStart s) = engineStart s
    ∧ engineStop (engineStop s) = engineStop s := by
  constructor
  · by_cases hr : s.running = true
    · simp [engineStart, hr]
    · have hf : s.running = false := by simpa using hr
      have hrun : (engineStart s).running = true := by
        simp only [engineStart, hf, Bool.false_eq_true, if_false]
        exact (startThreads_preserves s.fieldsets _).1
      conv_lhs => rw [engineStart]
      simp [hrun]
  · by_cases hr : s.running = true
    · simp [engineStop, hr]
    · have hf : s.running = false := by simpa using hr
      simp [engineStop, hf]

/-- Claim C10: an empty texts list on the state control reads as
`Disabled`, and a first text equal to the empty string also reads as
`Disabled` (whose UI name is the empty string), so a blank state display
never fails and is always observed as `Disabled`. -/
theorem claim_C10_blank_state_is_disabled (texts : List String) :
    (texts = [] → impl_get_match_state_texts texts = Except.ok FieldsetState.Disabled)
    ∧ (texts.head? = some "" → impl_get_match_state_texts texts = Except.ok FieldsetState.Disabled)
    ∧ FieldsetState.by_ui_name "" = Except.ok FieldsetState.Disabled
    ∧ FieldsetState.Disabled.ui_name = "" := by
  refine ⟨fun h => ?_, fun h => ?_, by decide, by decide⟩
  · subst h
    decide
  · cases texts with
    | nil => simp at h
    | cons t ts =>
      simp only [List.head?_cons, Option.some.injEq] at h
      subst h
      show FieldsetState.by_ui_name "" = Except.ok FieldsetState.Disabled
      decide

/-- Witness for claim C10: the empty texts list and the singleton blank
text. -/
theorem claim_C10_blank_state_is_disabled_witness :
    impl_get_match_state_texts [] = Except.ok FieldsetState.Disabled
    ∧ impl_get_match_state_texts [""] = Except.ok FieldsetState.Disabled :=
  ⟨(claim_C10_blank_state_is_disabled []).1 rfl,
   (claim_C10_blank_state_is_disabled [""]).2.1 rfl⟩
